import Mathlib

/-!
Shallow embedding of the device registry and telemetry ingestion service of
this repository (src/web-admin/server/controllers/deviceController.js, the
API routes, and the relational schema in
src/supabase/migrations/20250731113827_hidden_tree.sql), together with
theorems settling the behavioural claims about registration, sync,
heartbeat, deletion, listing and filtering.

Timestamps (DATETIME columns and the server clock CURRENT_TIMESTAMP) are
modelled as natural numbers; the client-supplied epoch-millisecond
`timestamp` column (INTEGER) is modelled as an integer validated
non-negative, exactly as the route validator demands; REAL columns
(latitude/longitude) are modelled as rationals.  Each table is a list of
rows in insertion (autoincrement-id) order.
-/

/-- A row of the `devices` table (migration lines 5-17). -/
structure Device where
  rowId : Nat
  device_id : String
  model : String
  manufacturer : String
  os_version : Option String
  app_version : Option String
  first_seen : Nat
  last_seen : Nat
  is_active : Bool
  created_at : Nat
  updated_at : Nat
deriving Repr, DecidableEq

/-- A row of the `device_logs` table (migration lines 20-32). -/
structure DeviceLog where
  rowId : Nat
  device_id : String
  battery_level : Option Int
  network_status : Option String
  latitude : Option Rat
  longitude : Option Rat
  local_ip : Option String
  public_ip : Option String
  timestamp : Int
  created_at : Nat
deriving Repr, DecidableEq

/-- The relational store: the two tables the device controller touches, in
insertion order, plus the autoincrement counters. -/
structure Store where
  devices : List Device
  device_logs : List DeviceLog
  nextDeviceRowId : Nat
  nextLogRowId : Nat
deriving Repr, DecidableEq

def emptyStore : Store :=
  { devices := [], device_logs := [], nextDeviceRowId := 1, nextLogRowId := 1 }

/-- `SELECT ... FROM devices WHERE device_id = ?` returning the first row. -/
def findDevice (s : Store) (did : String) : Option Device :=
  s.devices.find? (fun d => d.device_id == did)

/-- Number of `devices` rows carrying a given `device_id`. -/
def countFor (did : String) (l : List Device) : Nat :=
  (l.filter (fun d => d.device_id == did)).length

/-- `SELECT COUNT(*) FROM device_logs WHERE device_id = ?`. -/
def logCount (did : String) (s : Store) : Nat :=
  (s.device_logs.filter (fun l => l.device_id == did)).length

/-- The JSON envelope of an API response, keeping the fields the claims
talk about: HTTP status code, `success`, `data.status` (register) and
`error_code`. -/
structure ApiResult where
  httpStatus : Nat
  success : Bool
  status : Option String
  error_code : Option String
deriving Repr, DecidableEq

/-- Body of `POST /api/register` (route validator: `device_id`, `model`,
`manufacturer` non-empty; `os_version`, `app_version` optional strings). -/
structure RegisterBody where
  device_id : String
  model : String
  manufacturer : String
  os_version : Option String
  app_version : Option String
deriving Repr, DecidableEq

/-- The express-validator chain `deviceRegistrationValidation`. -/
def registerValid (b : RegisterBody) : Bool :=
  !b.device_id.isEmpty && !b.model.isEmpty && !b.manufacturer.isEmpty

/-- The existence probe of `registerDevice` (controller lines 35-38):
`SELECT id FROM devices WHERE device_id = ?` tested for truthiness. -/
def regRead (b : RegisterBody) (s : Store) : Bool :=
  (findDevice s b.device_id).isSome

/-- The row written by the register INSERT (controller lines 58-61): the
named columns from the body, the rest from the schema defaults
`first_seen = last_seen = created_at = updated_at = CURRENT_TIMESTAMP`,
`is_active = 1` (migration lines 12-16). -/
def insertedDevice (now : Nat) (b : RegisterBody) (rid : Nat) : Device :=
  { rowId := rid, device_id := b.device_id, model := b.model,
    manufacturer := b.manufacturer, os_version := b.os_version,
    app_version := b.app_version, first_seen := now, last_seen := now,
    is_active := true, created_at := now, updated_at := now }

/-- The effect of the register UPDATE (controller lines 42-48) on one
matching row. -/
def updatedDevice (now : Nat) (b : RegisterBody) (d : Device) : Device :=
  { d with model := b.model, manufacturer := b.manufacturer,
           os_version := b.os_version, app_version := b.app_version,
           last_seen := now, is_active := true }

/-- The write half of `registerDevice` (controller lines 40-69), taken
after the existence probe returned `seen`.  The update branch is the SQL
`UPDATE devices SET model, manufacturer, os_version, app_version,
last_seen = CURRENT_TIMESTAMP, is_active = 1 WHERE device_id = ?`; the
insert branch is `INSERT INTO devices (device_id, model, manufacturer,
os_version, app_version) VALUES (...)`, whose remaining columns take the
schema defaults `first_seen = last_seen = created_at = updated_at =
CURRENT_TIMESTAMP`, `is_active = 1`.  The `device_id TEXT UNIQUE` column
constraint (migration line 7) makes the INSERT throw when a row with the
same `device_id` already exists; the controller's catch block turns that
into a 500 / REGISTRATION_FAILED response with no row written. -/
def regWrite (now : Nat) (b : RegisterBody) (seen : Bool) (s : Store) :
    ApiResult × Store :=
  if seen then
    ({ httpStatus := 200, success := true, status := some "updated",
       error_code := none },
     { s with devices := s.devices.map (fun d =>
         if d.device_id == b.device_id then updatedDevice now b d else d) })
  else
    match findDevice s b.device_id with
    | some _ =>
        ({ httpStatus := 500, success := false, status := none,
           error_code := some "REGISTRATION_FAILED" }, s)
    | none =>
        ({ httpStatus := 201, success := true, status := some "registered",
           error_code := none },
         { s with
             devices := s.devices ++ [insertedDevice now b s.nextDeviceRowId],
             nextDeviceRowId := s.nextDeviceRowId + 1 })

/-- `registerDevice` (controller lines 14-79): validate, probe for an
existing row, then update or insert. -/
def registerDevice (now : Nat) (b : RegisterBody) (s : Store) :
    ApiResult × Store :=
  if registerValid b then regWrite now b (regRead b s) s
  else ({ httpStatus := 400, success := false, status := none,
          error_code := none }, s)

/-- Body of `POST /api/sync` (route validator `deviceSyncValidation`). -/
structure SyncBody where
  device_id : String
  battery_level : Option Int
  network_status : Option String
  latitude : Option Rat
  longitude : Option Rat
  local_ip : Option String
  public_ip : Option String
  timestamp : Int
deriving Repr, DecidableEq

/-- The express-validator chain `deviceSyncValidation`: non-empty
`device_id`, optional `battery_level` in [0,100], optional `latitude` in
[-90,90], optional `longitude` in [-180,180], required `timestamp` ≥ 0. -/
def syncValid (b : SyncBody) : Bool :=
  !b.device_id.isEmpty &&
  (match b.battery_level with
   | none => true
   | some v => decide (0 ≤ v) && decide (v ≤ 100)) &&
  (match b.latitude with
   | none => true
   | some v => decide (-90 ≤ v) && decide (v ≤ 90)) &&
  (match b.longitude with
   | none => true
   | some v => decide (-180 ≤ v) && decide (v ≤ 180)) &&
  decide (0 ≤ b.timestamp)

/-- The row written by the sync INSERT (controller lines 122-126): the
body fields verbatim, `created_at` from the schema default
CURRENT_TIMESTAMP. -/
def insertedLog (now : Nat) (b : SyncBody) (rid : Nat) : DeviceLog :=
  { rowId := rid, device_id := b.device_id,
    battery_level := b.battery_level, network_status := b.network_status,
    latitude := b.latitude, longitude := b.longitude,
    local_ip := b.local_ip, public_ip := b.public_ip,
    timestamp := b.timestamp, created_at := now }

/-- The effect of the sync UPDATE (controller lines 129-134) on one
matching row. -/
def syncUpdatedDevice (now : Nat) (d : Device) : Device :=
  { d with last_seen := now, is_active := true }

/-- `syncDeviceData` (controller lines 84-155): validate, check the device
exists (404 / DEVICE_NOT_FOUND otherwise), `INSERT INTO device_logs ...`,
then `UPDATE devices SET last_seen = CURRENT_TIMESTAMP, is_active = 1
WHERE device_id = ?`.  The two statements are issued separately with no
transaction around them, so a storage failure of the UPDATE (modelled by
`updateOk = false`) leaves the freshly inserted log row in place while the
catch block answers 500 / SYNC_FAILED. -/
def syncDeviceData (updateOk : Bool) (now : Nat) (b : SyncBody) (s : Store) :
    ApiResult × Store :=
  if syncValid b then
    match findDevice s b.device_id with
    | none =>
        ({ httpStatus := 404, success := false, status := none,
           error_code := some "DEVICE_NOT_FOUND" }, s)
    | some _ =>
        let s1 : Store :=
          { s with
              device_logs := s.device_logs ++ [insertedLog now b s.nextLogRowId],
              nextLogRowId := s.nextLogRowId + 1 }
        if updateOk then
          ({ httpStatus := 200, success := true, status := none,
             error_code := none },
           { s1 with devices := s1.devices.map (fun d =>
               if d.device_id == b.device_id then syncUpdatedDevice now d
               else d) })
        else
          ({ httpStatus := 500, success := false, status := none,
             error_code := some "SYNC_FAILED" }, s1)
  else
    ({ httpStatus := 400, success := false, status := none,
       error_code := none }, s)

/-- The `POST /api/heartbeat` route handler: after the non-empty
`device_id` validation it runs the unconditional `UPDATE devices SET
last_seen = CURRENT_TIMESTAMP WHERE device_id = ?` (note: `is_active` is
not touched) and always answers 200, whether or not any row matched. -/
def heartbeat (now : Nat) (did : String) (s : Store) : ApiResult × Store :=
  if did.isEmpty then
    ({ httpStatus := 400, success := false, status := none,
       error_code := none }, s)
  else
    ({ httpStatus := 200, success := true, status := none,
       error_code := none },
     { s with devices := s.devices.map (fun d =>
         if d.device_id == did then { d with last_seen := now } else d) })

/-- `deleteDevice` (controller lines 303-339): 404 when no row matches,
otherwise `DELETE FROM devices WHERE device_id = ?`; the schema's
`FOREIGN KEY (device_id) REFERENCES devices(device_id) ON DELETE CASCADE`
(migration line 31) removes that device's `device_logs` rows with it. -/
def deleteDevice (did : String) (s : Store) : ApiResult × Store :=
  match findDevice s did with
  | none =>
      ({ httpStatus := 404, success := false, status := none,
         error_code := none }, s)
  | some _ =>
      ({ httpStatus := 200, success := true, status := none,
         error_code := none },
       { s with
           devices := s.devices.filter (fun d => !(d.device_id == did)),
           device_logs := s.device_logs.filter
             (fun l => !(l.device_id == did)) })

/-- `a ≽ b` on `devices` rows for `ORDER BY last_seen DESC`. -/
def lastSeenGe (a b : Device) : Prop := b.last_seen ≤ a.last_seen

instance : DecidableRel lastSeenGe := fun a b => Nat.decLe b.last_seen a.last_seen

instance : IsTotal Device lastSeenGe := ⟨fun a b => le_total b.last_seen a.last_seen⟩

instance : IsTrans Device lastSeenGe :=
  ⟨fun _ _ _ hab hbc => le_trans hbc hab⟩

/-- `a ≽ b` on `device_logs` rows for `ORDER BY timestamp DESC`. -/
def tsGe (a b : DeviceLog) : Prop := b.timestamp ≤ a.timestamp

instance : DecidableRel tsGe := fun a b => Int.decLe b.timestamp a.timestamp

instance : IsTotal DeviceLog tsGe := ⟨fun a b => le_total b.timestamp a.timestamp⟩

instance : IsTrans DeviceLog tsGe :=
  ⟨fun _ _ _ hab hbc => le_trans hbc hab⟩

/-- `ORDER BY last_seen DESC` over a set of device rows, ties keeping
table (insertion) order: a stable descending sort. -/
def sortDevices (l : List Device) : List Device :=
  List.insertionSort lastSeenGe l

/-- `ORDER BY timestamp DESC` over a set of log rows. -/
def sortLogs (l : List DeviceLog) : List DeviceLog :=
  List.insertionSort tsGe l

/-- Case-insensitive substring test: the semantics of the SQL
`column LIKE '%search%'` filter built in `getAllDevices` (controller
lines 169-172). -/
def likeContains (hay needle : String) : Bool :=
  let h := hay.toLower.toList
  let n := needle.toLower.toList
  (List.range (h.length + 1)).any (fun i => n.isPrefixOf (h.drop i))

/-- The search part of the WHERE clause of `getAllDevices`: when `search`
is non-empty, `device_id LIKE ? OR model LIKE ? OR manufacturer LIKE ?`. -/
def matchesSearch (search : String) (d : Device) : Bool :=
  if search.isEmpty then true
  else
    likeContains d.device_id search || likeContains d.model search ||
      likeContains d.manufacturer search

/-- The status part of the WHERE clause of `getAllDevices` (controller
lines 175-181): no condition for `all`, `is_active = 1` for `active`, and
`is_active = 0` for every other status value. -/
def matchesStatus (status : String) (d : Device) : Bool :=
  if status == "all" then true
  else if status == "active" then d.is_active
  else !d.is_active

/-- The filtered device set of `getAllDevices`: the rows satisfying the
assembled WHERE clause, in table order.  Both the COUNT(*) query and the
page query run over exactly this set. -/
def filteredDevices (search status : String) (s : Store) : List Device :=
  s.devices.filter (fun d => matchesSearch search d && matchesStatus status d)

/-- `Math.ceil(total / limit)` for a natural `total` and positive natural
`limit`, as computed for the `pages` field. -/
def mathCeilDiv (a b : Nat) : Nat :=
  a / b + (if a % b == 0 then 0 else 1)

/-- The latest-log enrichment of `getAllDevices` (controller lines
202-216): `SELECT ... FROM device_logs WHERE device_id = ? ORDER BY
timestamp DESC LIMIT 1`. -/
def latestLog (s : Store) (did : String) : Option DeviceLog :=
  (sortLogs (s.device_logs.filter (fun l => l.device_id == did))).head?

/-- Result of `getAllDevices`: the returned page (each device with its
latest log) and the pagination object. -/
structure ListResult where
  devices : List (Device × Option DeviceLog)
  page : Nat
  limit : Nat
  total : Nat
  pages : Nat
deriving Repr, DecidableEq

/-- `getAllDevices` (controller lines 160-238): filter by search and
status, COUNT(*) the filtered set, `ORDER BY last_seen DESC LIMIT ?
OFFSET ?` with `offset = (page - 1) * limit`, enrich each returned row
with its most recent log, and report `pages = Math.ceil(total / limit)`. -/
def getAllDevices (page limit : Nat) (search status : String) (s : Store) :
    ListResult :=
  let filtered := filteredDevices search status s
  let total := filtered.length
  let pageItems := ((sortDevices filtered).drop ((page - 1) * limit)).take limit
  { devices := pageItems.map (fun d => (d, latestLog s d.device_id)),
    page := page, limit := limit, total := total,
    pages := mathCeilDiv total limit }

/-- Result of `getDeviceDetails`. -/
structure DetailResult where
  httpStatus : Nat
  device : Option Device
  logs : List DeviceLog
  total : Nat
  pages : Nat
deriving Repr, DecidableEq

/-- `getDeviceDetails` (controller lines 243-298): 404 when the device
does not exist, otherwise the device row plus its logs `ORDER BY
timestamp DESC LIMIT ? OFFSET ?` and the per-device log count. -/
def getDeviceDetails (did : String) (page limit : Nat) (s : Store) :
    DetailResult :=
  match findDevice s did with
  | none =>
      { httpStatus := 404, device := none, logs := [], total := 0, pages := 0 }
  | some d =>
      let mine := s.device_logs.filter (fun l => l.device_id == did)
      { httpStatus := 200, device := some d,
        logs := ((sortLogs mine).drop ((page - 1) * limit)).take limit,
        total := mine.length,
        pages := mathCeilDiv mine.length limit }

/-- A sequence of sync calls, each with its own server receipt time,
executed in order with the devices UPDATE succeeding; returns the
responses in order and the final store. -/
def runSyncs : List (Nat × SyncBody) → Store → List ApiResult × Store
  | [], s => ([], s)
  | c :: cs, s =>
      let first := syncDeviceData true c.1 c.2 s
      let rest := runSyncs cs first.2
      (first.1 :: rest.1, rest.2)

/-- The six interleavings of two concurrent `registerDevice` calls for the
same body, each call made of its existence probe (`regRead`, controller
lines 35-38) followed by its write (`regWrite`, lines 40-69); within each
call the probe precedes the write. -/
inductive RaceOrder where
  | r1w1r2w2
  | r1r2w1w2
  | r2r1w1w2
  | r1r2w2w1
  | r2r1w2w1
  | r2w2r1w1
deriving Repr, DecidableEq

/-- Execute two concurrent registrations of the same body under a given
interleaving: the two responses and the final store. -/
def raceRegister (o : RaceOrder) (now1 now2 : Nat) (b : RegisterBody)
    (s : Store) : ApiResult × ApiResult × Store :=
  match o with
  | .r1w1r2w2 =>
      let e1 := regRead b s
      let w1 := regWrite now1 b e1 s
      let e2 := regRead b w1.2
      let w2 := regWrite now2 b e2 w1.2
      (w1.1, w2.1, w2.2)
  | .r1r2w1w2 =>
      let e1 := regRead b s
      let e2 := regRead b s
      let w1 := regWrite now1 b e1 s
      let w2 := regWrite now2 b e2 w1.2
      (w1.1, w2.1, w2.2)
  | .r2r1w1w2 =>
      let e2 := regRead b s
      let e1 := regRead b s
      let w1 := regWrite now1 b e1 s
      let w2 := regWrite now2 b e2 w1.2
      (w1.1, w2.1, w2.2)
  | .r1r2w2w1 =>
      let e1 := regRead b s
      let e2 := regRead b s
      let w2 := regWrite now2 b e2 s
      let w1 := regWrite now1 b e1 w2.2
      (w1.1, w2.1, w1.2)
  | .r2r1w2w1 =>
      let e2 := regRead b s
      let e1 := regRead b s
      let w2 := regWrite now2 b e2 s
      let w1 := regWrite now1 b e1 w2.2
      (w1.1, w2.1, w1.2)
  | .r2w2r1w1 =>
      let e2 := regRead b s
      let w2 := regWrite now2 b e2 s
      let e1 := regRead b w2.2
      let w1 := regWrite now1 b e1 w2.2
      (w1.1, w2.1, w1.2)

/-! ### Concrete fixtures used by witnesses -/

def wRegBody : RegisterBody :=
  { device_id := "dev-1", model := "Pixel 6", manufacturer := "Google",
    os_version := some "Android 13", app_version := some "1.0" }

def wRegBodyNoOs : RegisterBody :=
  { device_id := "dev-1", model := "Pixel 6", manufacturer := "Google",
    os_version := none, app_version := none }

def wSyncBody : SyncBody :=
  { device_id := "dev-1", battery_level := some 85,
    network_status := some "WiFi Connected", latitude := none,
    longitude := none, local_ip := none, public_ip := none,
    timestamp := 1000 }

def wSyncBodyUnknown : SyncBody :=
  { device_id := "dev-x", battery_level := none, network_status := none,
    latitude := none, longitude := none, local_ip := none,
    public_ip := none, timestamp := 1000 }

/-- Store holding the single device `dev-1`, registered at time 0. -/
def wStore : Store := (registerDevice 0 wRegBody emptyStore).2

/-- Store holding `dev-1` (registered at time 0) with one synced log. -/
def wStoreSynced : Store := (syncDeviceData true 3 wSyncBody wStore).2

/-- A second device, registered at time 4. -/
def wRegBody2 : RegisterBody :=
  { device_id := "dev-2", model := "Galaxy S21", manufacturer := "Samsung",
    os_version := none, app_version := none }

/-- Store holding `dev-1` (registered at time 0) and `dev-2` (registered
at time 4). -/
def wStore2 : Store := (registerDevice 4 wRegBody2 wStore).2

/-- Whether a race participant observed the losing outcome the code can
produce: either its read came after the winning insert (it ran the update
branch, 200 / `updated`) or its duplicate INSERT was rejected by the
unique constraint and surfaced as 500 / REGISTRATION_FAILED. -/
def raceLoser (r : ApiResult) : Prop :=
  (r.httpStatus = 200 ∧ r.status = some "updated")
  ∨ (r.httpStatus = 500 ∧ r.error_code = some "REGISTRATION_FAILED")

/-! ### Helper lemmas about the store operations -/

theorem find?_map_of_pres (l : List Device) (f : Device → Device)
    (hf : ∀ d, (f d).device_id = d.device_id) (did : String) :
    (l.map f).find? (fun d => d.device_id == did) =
      Option.map f (l.find? (fun d => d.device_id == did)) := by
  induction l with
  | nil => rfl
  | cons a t ih =>
      simp only [List.map_cons, List.find?_cons, hf a]
      cases h : (a.device_id == did) <;> simp [h, ih]

theorem countFor_map_of_pres (l : List Device) (f : Device → Device)
    (hf : ∀ d, (f d).device_id = d.device_id) (did : String) :
    countFor did (l.map f) = countFor did l := by
  unfold countFor
  rw [List.filter_map]
  have hp : (fun d => d.device_id == did) ∘ f = fun d => d.device_id == did := by
    funext d
    simp [Function.comp, hf d]
  rw [hp, List.length_map]

theorem countFor_append (l₁ l₂ : List Device) (did : String) :
    countFor did (l₁ ++ l₂) = countFor did l₁ + countFor did l₂ := by
  simp [countFor, List.filter_append]

theorem countFor_eq_zero_of_none (s : Store) (did : String)
    (h : findDevice s did = none) : countFor did s.devices = 0 := by
  unfold findDevice at h
  rw [List.find?_eq_none] at h
  unfold countFor
  rw [List.length_eq_zero]
  rw [List.filter_eq_nil_iff]
  exact h

theorem map_id_of_none (s : Store) (did : String) (f : Device → Device)
    (h : findDevice s did = none) :
    s.devices.map (fun d => if d.device_id == did then f d else d) =
      s.devices := by
  unfold findDevice at h
  rw [List.find?_eq_none] at h
  calc s.devices.map (fun d => if d.device_id == did then f d else d)
      = s.devices.map id := by
        apply List.map_congr_left
        intro d hd
        have hfalse : (d.device_id == did) = false := by
          have := h d hd
          simpa using this
        simp [hfalse]
    _ = s.devices := List.map_id s.devices

/-! ### Claim theorems -/

/-- C2: a valid sync call whose `device_id` has no Device row fails with
HTTP 404 and error code DEVICE_NOT_FOUND, and leaves the store completely
unchanged (no TelemetryRecord inserted, no Device created), whether or not
the devices UPDATE statement would have succeeded. -/
theorem sync_unregistered_notFound (updateOk : Bool) (now : Nat)
    (b : SyncBody) (s : Store) (hv : syncValid b = true)
    (hnone : findDevice s b.device_id = none) :
    (syncDeviceData updateOk now b s).1.httpStatus = 404
    ∧ (syncDeviceData updateOk now b s).1.success = false
    ∧ (syncDeviceData updateOk now b s).1.error_code = some "DEVICE_NOT_FOUND"
    ∧ (syncDeviceData updateOk now b s).2 = s := by
  simp [syncDeviceData, hv, hnone]

/-- C2 witness: syncing the never-registered `dev-x` against the empty
store answers 404 / DEVICE_NOT_FOUND and changes nothing. -/
theorem sync_unregistered_notFound_witness :
    (syncDeviceData true 7 wSyncBodyUnknown emptyStore).1.httpStatus = 404
    ∧ (syncDeviceData true 7 wSyncBodyUnknown emptyStore).1.error_code =
        some "DEVICE_NOT_FOUND"
    ∧ (syncDeviceData true 7 wSyncBodyUnknown emptyStore).2 = emptyStore :=
  ⟨(sync_unregistered_notFound true 7 wSyncBodyUnknown emptyStore
      (by decide) (by decide)).1,
   (sync_unregistered_notFound true 7 wSyncBodyUnknown emptyStore
      (by decide) (by decide)).2.2.1,
   (sync_unregistered_notFound true 7 wSyncBodyUnknown emptyStore
      (by decide) (by decide)).2.2.2⟩

/-- C6: a heartbeat for an existing device changes that device's
`last_seen` and nothing else: the log table, the table length, and every
field other than `last_seen` of every row are untouched, and rows for
other devices are untouched entirely; a heartbeat for an unknown
`device_id` answers 200 but leaves the store exactly as it was — it never
creates a Device row. -/
theorem heartbeat_frame_spec (now : Nat) (did : String) (s : Store)
    (hne : did.isEmpty = false) :
    (heartbeat now did s).1.httpStatus = 200
    ∧ (heartbeat now did s).1.success = true
    ∧ (heartbeat now did s).2.device_logs = s.device_logs
    ∧ (heartbeat now did s).2.devices.length = s.devices.length
    ∧ (∀ i (h : i < s.devices.length)
         (h2 : i < (heartbeat now did s).2.devices.length),
        (((heartbeat now did s).2.devices.get ⟨i, h2⟩).rowId =
            (s.devices.get ⟨i, h⟩).rowId
        ∧ ((heartbeat now did s).2.devices.get ⟨i, h2⟩).device_id =
            (s.devices.get ⟨i, h⟩).device_id
        ∧ ((heartbeat now did s).2.devices.get ⟨i, h2⟩).model =
            (s.devices.get ⟨i, h⟩).model
        ∧ ((heartbeat now did s).2.devices.get ⟨i, h2⟩).manufacturer =
            (s.devices.get ⟨i, h⟩).manufacturer
        ∧ ((heartbeat now did s).2.devices.get ⟨i, h2⟩).os_version =
            (s.devices.get ⟨i, h⟩).os_version
        ∧ ((heartbeat now did s).2.devices.get ⟨i, h2⟩).app_version =
            (s.devices.get ⟨i, h⟩).app_version
        ∧ ((heartbeat now did s).2.devices.get ⟨i, h2⟩).first_seen =
            (s.devices.get ⟨i, h⟩).first_seen
        ∧ ((heartbeat now did s).2.devices.get ⟨i, h2⟩).is_active =
            (s.devices.get ⟨i, h⟩).is_active
        ∧ ((heartbeat now did s).2.devices.get ⟨i, h2⟩).created_at =
            (s.devices.get ⟨i, h⟩).created_at
        ∧ ((heartbeat now did s).2.devices.get ⟨i, h2⟩).updated_at =
            (s.devices.get ⟨i, h⟩).updated_at
        ∧ ((s.devices.get ⟨i, h⟩).device_id ≠ did →
            (heartbeat now did s).2.devices.get ⟨i, h2⟩ =
              s.devices.get ⟨i, h⟩)))
    ∧ (findDevice s did = none → (heartbeat now did s).2 = s) := by
  have hb : heartbeat now did s =
      ({ httpStatus := 200, success := true, status := none,
         error_code := none },
       { s with devices := s.devices.map (fun d =>
           if d.device_id == did then { d with last_seen := now } else d) }) := by
    simp only [heartbeat, hne, Bool.false_eq_true, if_false]
  rw [hb]
  refine ⟨rfl, rfl, rfl, by simp, ?_, ?_⟩
  · intro i h h2
    simp only [List.get_eq_getElem, List.getElem_map]
    by_cases hc : (s.devices[i].device_id == did) = true
    · rw [if_pos hc]
      refine ⟨rfl, rfl, rfl, rfl, rfl, rfl, rfl, rfl, rfl, rfl, ?_⟩
      intro hnot
      exact absurd (by simpa using hc) hnot
    · rw [if_neg hc]
      exact ⟨rfl, rfl, rfl, rfl, rfl, rfl, rfl, rfl, rfl, rfl, fun _ => rfl⟩
  · intro hnone
    have hmap := map_id_of_none s did (fun d => { d with last_seen := now }) hnone
    simp only at hmap
    rw [hmap]

/-- C6 witness: a heartbeat at time 9 for the registered `dev-1` keeps the
log table and every non-`last_seen` field, and a heartbeat for the unknown
`dev-x` leaves the store untouched. -/
theorem heartbeat_frame_spec_witness :
    ((heartbeat 9 "dev-1" wStore).1.httpStatus = 200
      ∧ (heartbeat 9 "dev-1" wStore).2.device_logs = wStore.device_logs
      ∧ (heartbeat 9 "dev-1" wStore).2.devices.length = wStore.devices.length)
    ∧ (heartbeat 9 "dev-x" wStore).2 = wStore :=
  ⟨⟨(heartbeat_frame_spec 9 "dev-1" wStore (by decide)).1,
    (heartbeat_frame_spec 9 "dev-1" wStore (by decide)).2.2.1,
    (heartbeat_frame_spec 9 "dev-1" wStore (by decide)).2.2.2.1⟩,
   (heartbeat_frame_spec 9 "dev-x" wStore (by decide)).2.2.2.2.2 (by decide)⟩

/-- C10: on a registration whose `device_id` already has a row, the update
branch writes all four descriptor fields from the request body, so every
surviving row for that `device_id` carries exactly the request's `model`,
`manufacturer`, `os_version` and `app_version`; re-registering without the
optional fields therefore overwrites previously stored values with null
(`none`) instead of preserving them. -/
theorem register_update_overwrites (now : Nat) (b : RegisterBody) (s : Store)
    (hv : registerValid b = true)
    (hseen : (findDevice s b.device_id).isSome = true) :
    (registerDevice now b s).1.httpStatus = 200
    ∧ (registerDevice now b s).1.status = some "updated"
    ∧ ∀ d ∈ (registerDevice now b s).2.devices, d.device_id = b.device_id →
        d.model = b.model ∧ d.manufacturer = b.manufacturer
        ∧ d.os_version = b.os_version ∧ d.app_version = b.app_version := by
  have hreg : registerDevice now b s = regWrite now b true s := by
    rw [registerDevice, if_pos hv]
    unfold regRead
    rw [hseen]
  rw [hreg]
  rw [regWrite, if_pos rfl]
  refine ⟨rfl, rfl, ?_⟩
  intro d hd hdid
  obtain ⟨d0, hd0, hfd0⟩ := List.mem_map.1 hd
  by_cases hc : (d0.device_id == b.device_id) = true
  · rw [if_pos hc] at hfd0
    rw [← hfd0]
    exact ⟨rfl, rfl, rfl, rfl⟩
  · rw [if_neg hc] at hfd0
    rw [← hfd0] at hdid
    exact absurd (by simpa using hdid) hc

/-- C10 witness: re-registering `dev-1` (stored with `os_version = some
"Android 13"`) with a body whose optional fields are absent yields status
`updated` and leaves the stored `os_version` overwritten to `none`. -/
theorem register_update_overwrites_witness :
    (registerDevice 5 wRegBodyNoOs wStore).1.status = some "updated"
    ∧ Option.map Device.os_version
        (findDevice (registerDevice 5 wRegBodyNoOs wStore).2 "dev-1") =
      some none
    ∧ Option.map Device.os_version (findDevice wStore "dev-1") =
      some (some "Android 13") :=
  ⟨(register_update_overwrites 5 wRegBodyNoOs wStore (by decide)
      (by decide)).2.1,
   by decide, by decide⟩

/-- C4: deleting an existing device answers 200, removes its Device row
and — through the schema's ON DELETE CASCADE — every one of its log rows
(the per-device log count becomes 0 and no orphan log remains), after
which a detail query for it answers 404; deleting a nonexistent
`device_id` answers 404 and leaves the store unchanged. -/
theorem deleteDevice_spec (did : String) (s : Store) :
    (findDevice s did = none →
       (deleteDevice did s).1.httpStatus = 404 ∧ (deleteDevice did s).2 = s)
    ∧ ((findDevice s did).isSome = true →
       (deleteDevice did s).1.httpStatus = 200
       ∧ findDevice (deleteDevice did s).2 did = none
       ∧ logCount did (deleteDevice did s).2 = 0
       ∧ (∀ l ∈ (deleteDevice did s).2.device_logs, ¬(l.device_id = did))
       ∧ (getDeviceDetails did 1 100 (deleteDevice did s).2).httpStatus
           = 404) := by
  refine ⟨?_, ?_⟩
  · intro h
    simp [deleteDevice, h]
  · intro h
    obtain ⟨d, hd⟩ := Option.isSome_iff_exists.1 h
    have hdel : deleteDevice did s =
        ({ httpStatus := 200, success := true, status := none,
           error_code := none },
         { s with
             devices := s.devices.filter (fun d => !(d.device_id == did)),
             device_logs := s.device_logs.filter
               (fun l => !(l.device_id == did)) }) := by
      unfold deleteDevice
      rw [hd]
    rw [hdel]
    have hfnone : findDevice
        { s with
            devices := s.devices.filter (fun d => !(d.device_id == did)),
            device_logs := s.device_logs.filter
              (fun l => !(l.device_id == did)) } did = none := by
      rw [findDevice, List.find?_eq_none]
      intro x hx
      have hx2 := (List.mem_filter.1 hx).2
      simpa using hx2
    refine ⟨rfl, hfnone, ?_, ?_, ?_⟩
    · rw [logCount]
      simp only
      rw [List.length_eq_zero, List.filter_eq_nil_iff]
      intro x hx
      have hx2 := (List.mem_filter.1 hx).2
      simpa using hx2
    · intro l hl
      have hl2 := (List.mem_filter.1 hl).2
      simpa using hl2
    · simp [getDeviceDetails, hfnone]

/-- C4 witness: deleting `dev-1` from the store where it owns one log row
answers 200, drops its log count from 1 to 0, and a subsequent detail
query answers 404; deleting the unknown `dev-x` answers 404. -/
theorem deleteDevice_spec_witness :
    logCount "dev-1" wStoreSynced = 1
    ∧ (deleteDevice "dev-1" wStoreSynced).1.httpStatus = 200
    ∧ logCount "dev-1" (deleteDevice "dev-1" wStoreSynced).2 = 0
    ∧ (getDeviceDetails "dev-1" 1 100
        (deleteDevice "dev-1" wStoreSynced).2).httpStatus = 404
    ∧ (deleteDevice "dev-x" wStoreSynced).1.httpStatus = 404 :=
  ⟨by decide,
   ((deleteDevice_spec "dev-1" wStoreSynced).2 (by decide)).1,
   ((deleteDevice_spec "dev-1" wStoreSynced).2 (by decide)).2.2.1,
   ((deleteDevice_spec "dev-1" wStoreSynced).2 (by decide)).2.2.2.2,
   ((deleteDevice_spec "dev-x" wStoreSynced).1 (by decide)).1⟩

/-- C1 counterexample: the very first (valid, never-seen) registration
answers HTTP 201, but the `data.status` string is `registered`, not
`created` as the claim states (controller line 67). -/
theorem register_status_counterexample :
    (registerDevice 0 wRegBody emptyStore).1.httpStatus = 201
    ∧ (registerDevice 0 wRegBody emptyStore).1.status = some "registered"
    ∧ ¬((registerDevice 0 wRegBody emptyStore).1.status = some "created") := by
  decide

/-- C1 (amended: the creation status string is `registered`, not
`created`): a valid registration of a never-seen `device_id` inserts
exactly one Device row with `first_seen = last_seen = now` and
`is_active = true` and answers 201 / `registered`; a subsequent valid
registration of the same `device_id` answers 200 / `updated`, rewrites
`model`, `manufacturer`, `os_version`, `app_version`, sets
`last_seen = now` and `is_active = true`, leaves `first_seen` unchanged,
and adds no second row. -/
theorem register_upsert_spec (now1 now2 : Nat) (b1 b2 : RegisterBody)
    (s : Store) (hv1 : registerValid b1 = true)
    (hv2 : registerValid b2 = true) (hid : b2.device_id = b1.device_id)
    (hnone : findDevice s b1.device_id = none) :
    (registerDevice now1 b1 s).1.httpStatus = 201
    ∧ (registerDevice now1 b1 s).1.status = some "registered"
    ∧ (registerDevice now1 b1 s).2.devices.length = s.devices.length + 1
    ∧ countFor b1.device_id (registerDevice now1 b1 s).2.devices = 1
    ∧ (∃ d, findDevice (registerDevice now1 b1 s).2 b1.device_id = some d
        ∧ d.first_seen = now1 ∧ d.last_seen = now1 ∧ d.is_active = true
        ∧ d.model = b1.model ∧ d.manufacturer = b1.manufacturer)
    ∧ (registerDevice now2 b2 (registerDevice now1 b1 s).2).1.httpStatus = 200
    ∧ (registerDevice now2 b2 (registerDevice now1 b1 s).2).1.status =
        some "updated"
    ∧ (registerDevice now2 b2 (registerDevice now1 b1 s).2).2.devices.length =
        s.devices.length + 1
    ∧ countFor b1.device_id
        (registerDevice now2 b2 (registerDevice now1 b1 s).2).2.devices = 1
    ∧ (∃ d2, findDevice
          (registerDevice now2 b2 (registerDevice now1 b1 s).2).2
          b1.device_id = some d2
        ∧ d2.model = b2.model ∧ d2.manufacturer = b2.manufacturer
        ∧ d2.os_version = b2.os_version ∧ d2.app_version = b2.app_version
        ∧ d2.last_seen = now2 ∧ d2.is_active = true
        ∧ d2.first_seen = now1) := by
  have hnone' : s.devices.find? (fun d => d.device_id == b1.device_id) =
      none := hnone
  have h1 : registerDevice now1 b1 s =
      ({ httpStatus := 201, success := true, status := some "registered",
         error_code := none },
       { s with
           devices := s.devices ++ [insertedDevice now1 b1 s.nextDeviceRowId],
           nextDeviceRowId := s.nextDeviceRowId + 1 }) := by
    rw [registerDevice, if_pos hv1]
    unfold regRead
    rw [hnone]
    unfold regWrite
    simp only [Option.isSome_none, Bool.false_eq_true, if_false]
    rw [hnone]
  have hfind1 : findDevice (registerDevice now1 b1 s).2 b1.device_id =
      some (insertedDevice now1 b1 s.nextDeviceRowId) := by
    rw [h1, findDevice]
    simp only [List.find?_append, hnone', Option.none_or]
    simp [insertedDevice, List.find?]
  have hcount1 : countFor b1.device_id (registerDevice now1 b1 s).2.devices
      = 1 := by
    rw [h1]
    simp only
    rw [countFor_append, countFor_eq_zero_of_none s b1.device_id hnone]
    simp [countFor, insertedDevice]
  have h2 : registerDevice now2 b2 (registerDevice now1 b1 s).2 =
      regWrite now2 b2 true (registerDevice now1 b1 s).2 := by
    rw [registerDevice, if_pos hv2]
    unfold regRead
    rw [hid, hfind1]
    rfl
  have hpres : ∀ d, ((fun d =>
      if d.device_id == b2.device_id then updatedDevice now2 b2 d else d)
        d).device_id = d.device_id := by
    intro d
    show (if d.device_id == b2.device_id then updatedDevice now2 b2 d
      else d).device_id = d.device_id
    by_cases hc : (d.device_id == b2.device_id) = true
    · rw [if_pos hc]
      rfl
    · rw [if_neg hc]
  have h2w : regWrite now2 b2 true (registerDevice now1 b1 s).2 =
      ({ httpStatus := 200, success := true, status := some "updated",
         error_code := none },
       { (registerDevice now1 b1 s).2 with
           devices := (registerDevice now1 b1 s).2.devices.map (fun d =>
             if d.device_id == b2.device_id then updatedDevice now2 b2 d
             else d) }) := by
    rw [regWrite, if_pos rfl]
  have hfind2 : findDevice (registerDevice now2 b2
        (registerDevice now1 b1 s).2).2 b1.device_id =
      some (updatedDevice now2 b2 (insertedDevice now1 b1 s.nextDeviceRowId))
      := by
    rw [h2, h2w, findDevice]
    simp only
    rw [find?_map_of_pres _ _ hpres]
    have : (registerDevice now1 b1 s).2.devices.find?
        (fun d => d.device_id == b1.device_id) =
        some (insertedDevice now1 b1 s.nextDeviceRowId) := hfind1
    rw [this]
    have hcond : ((insertedDevice now1 b1 s.nextDeviceRowId).device_id ==
        b2.device_id) = true := by
      simp [insertedDevice, hid]
    simp [hcond]
    intro habs
    exact absurd (by simpa using hcond) habs
  refine ⟨by rw [h1], by rw [h1], by rw [h1]; simp, hcount1,
    ⟨insertedDevice now1 b1 s.nextDeviceRowId, hfind1, rfl, rfl, rfl, rfl,
      rfl⟩, by rw [h2, h2w], by rw [h2, h2w], ?_, ?_,
    ⟨updatedDevice now2 b2 (insertedDevice now1 b1 s.nextDeviceRowId),
      hfind2, rfl, rfl, rfl, rfl, rfl, rfl, rfl⟩⟩
  · rw [h2, h2w]
    simp only [List.length_map]
    rw [h1]
    simp
  · rw [h2, h2w]
    simp only
    rw [countFor_map_of_pres _ _ hpres, hcount1]

/-- C1 witness: registering `dev-1` on the empty store answers 201 /
`registered`; re-registering it (without the optional fields) answers
200 / `updated` and keeps `first_seen = 0`. -/
theorem register_upsert_spec_witness :
    (registerDevice 0 wRegBody emptyStore).1.httpStatus = 201
    ∧ (registerDevice 5 wRegBodyNoOs
        (registerDevice 0 wRegBody emptyStore).2).1.status = some "updated"
    ∧ Option.map Device.first_seen
        (findDevice (registerDevice 5 wRegBodyNoOs
          (registerDevice 0 wRegBody emptyStore).2).2 "dev-1") = some 0 := by
  have h := register_upsert_spec 0 5 wRegBody wRegBodyNoOs emptyStore
    (by decide) (by decide) (by decide) (by decide)
  refine ⟨h.1, h.2.2.2.2.2.2.1, ?_⟩
  obtain ⟨d2, hf, hrest⟩ := h.2.2.2.2.2.2.2.2.2
  have : findDevice (registerDevice 5 wRegBodyNoOs
      (registerDevice 0 wRegBody emptyStore).2).2 "dev-1" = some d2 := hf
  rw [this]
  simp [hrest.2.2.2.2.2.2]

/-- C9 counterexample: on the empty store the `status=active` and
`status=all` listings (same empty search) return the same device set —
the filtered sets and the returned pages are equal, so the active set is
not a strict subset and the two sets are not "never equal". -/
theorem active_strict_subset_counterexample :
    filteredDevices "" "active" emptyStore =
      filteredDevices "" "all" emptyStore
    ∧ (getAllDevices 1 50 "" "active" emptyStore).devices =
        (getAllDevices 1 50 "" "all" emptyStore).devices := by
  decide

/-- C9 (amended: subset, not strict subset): every device in the filtered
set of a `status=active` listing also lies in the filtered set of the
`status=all` listing under the same search string; the inclusion can be
an equality (for example when every stored device is active, or the store
is empty). -/
theorem active_filter_subset (search : String) (s : Store) (d : Device)
    (hd : d ∈ filteredDevices search "active" s) :
    d ∈ filteredDevices search "all" s := by
  unfold filteredDevices at hd ⊢
  rw [List.mem_filter] at hd ⊢
  have h2 : matchesSearch search d = true
      ∧ matchesStatus "active" d = true := by
    simpa using hd.2
  refine ⟨hd.1, ?_⟩
  show (matchesSearch search d && matchesStatus "all" d) = true
  rw [h2.1]
  simp [matchesStatus]

/-- C9 witness: the registered (active) `dev-1` appears in the
`status=active` filtered set of its store and, through the theorem, in the
`status=all` filtered set. -/
theorem active_filter_subset_witness :
    insertedDevice 0 wRegBody 1 ∈ filteredDevices "" "all" wStore :=
  active_filter_subset "" wStore (insertedDevice 0 wRegBody 1) (by decide)

/-- C3: evaluation at the failing input.  `syncDeviceData` issues the
`device_logs` INSERT and the `devices` UPDATE as two separate statements
with no transaction; when the UPDATE fails (updateOk = false) the call is
answered 500 / SYNC_FAILED — i.e. treated as failed — yet the freshly
inserted TelemetryRecord stays in the store while the device's
`last_seen` has not advanced, exactly the partial state the claim says
cannot be observed. -/
theorem sync_partial_write :
    (syncDeviceData false 5 wSyncBody wStore).1.httpStatus = 500
    ∧ (syncDeviceData false 5 wSyncBody wStore).1.error_code =
        some "SYNC_FAILED"
    ∧ logCount "dev-1" (syncDeviceData false 5 wSyncBody wStore).2 =
        logCount "dev-1" wStore + 1
    ∧ Option.map Device.last_seen
        (findDevice (syncDeviceData false 5 wSyncBody wStore).2 "dev-1") =
      some 0
    ∧ Option.map Device.last_seen (findDevice wStore "dev-1") = some 0 := by
  decide

/-! ### Lemmas about the two halves of registration, used for the race -/

theorem regWrite_insert (now : Nat) (b : RegisterBody) (s : Store)
    (hnone : findDevice s b.device_id = none) :
    regWrite now b false s =
      ({ httpStatus := 201, success := true, status := some "registered",
         error_code := none },
       { s with
           devices := s.devices ++ [insertedDevice now b s.nextDeviceRowId],
           nextDeviceRowId := s.nextDeviceRowId + 1 }) := by
  unfold regWrite
  simp only [Bool.false_eq_true, if_false]
  rw [hnone]

theorem regWrite_conflict (now : Nat) (b : RegisterBody) (s : Store)
    (d : Device) (hsome : findDevice s b.device_id = some d) :
    regWrite now b false s =
      ({ httpStatus := 500, success := false, status := none,
         error_code := some "REGISTRATION_FAILED" }, s) := by
  unfold regWrite
  simp only [Bool.false_eq_true, if_false]
  rw [hsome]

theorem regWrite_update (now : Nat) (b : RegisterBody) (s : Store) :
    regWrite now b true s =
      ({ httpStatus := 200, success := true, status := some "updated",
         error_code := none },
       { s with devices := s.devices.map (fun d =>
           if d.device_id == b.device_id then updatedDevice now b d
           else d) }) := by
  rw [regWrite, if_pos rfl]

theorem regUpd_pres (now : Nat) (b : RegisterBody) :
    ∀ d, ((fun d =>
      if d.device_id == b.device_id then updatedDevice now b d else d)
        d).device_id = d.device_id := by
  intro d
  show (if d.device_id == b.device_id then updatedDevice now b d
    else d).device_id = d.device_id
  by_cases hc : (d.device_id == b.device_id) = true
  · rw [if_pos hc]
    rfl
  · rw [if_neg hc]

theorem findDevice_insert (now : Nat) (b : RegisterBody) (s : Store)
    (hnone : findDevice s b.device_id = none) :
    findDevice
      { s with
          devices := s.devices ++ [insertedDevice now b s.nextDeviceRowId],
          nextDeviceRowId := s.nextDeviceRowId + 1 } b.device_id =
      some (insertedDevice now b s.nextDeviceRowId) := by
  have hnone' : s.devices.find? (fun d => d.device_id == b.device_id) =
      none := hnone
  rw [findDevice]
  simp only [List.find?_append, hnone', Option.none_or]
  simp [insertedDevice, List.find?]

theorem countFor_insert (now : Nat) (b : RegisterBody) (s : Store)
    (hnone : findDevice s b.device_id = none) :
    countFor b.device_id
      (s.devices ++ [insertedDevice now b s.nextDeviceRowId]) = 1 := by
  rw [countFor_append, countFor_eq_zero_of_none s b.device_id hnone]
  simp [countFor, insertedDevice]

/-- C5 counterexample: under the interleaving in which both existence
probes run before either insert, the loser of the race observes a 500
response with no `data.status` at all — neither `updated` nor any retried
update — while the winner gets 201 / `registered` (not `created`); the
claim's description of the second caller's observation is false. -/
theorem raceRegister_counterexample :
    (raceRegister .r1r2w1w2 0 1 wRegBody emptyStore).2.1.httpStatus = 500
    ∧ (raceRegister .r1r2w1w2 0 1 wRegBody emptyStore).2.1.status = none
    ∧ ¬((raceRegister .r1r2w1w2 0 1 wRegBody emptyStore).2.1.status =
        some "updated")
    ∧ (raceRegister .r1r2w1w2 0 1 wRegBody emptyStore).1.status =
        some "registered"
    ∧ countFor "dev-1"
        (raceRegister .r1r2w1w2 0 1 wRegBody emptyStore).2.2.devices = 1 := by
  decide

/-- C5 (amended): for every interleaving of two concurrent first-time
registrations of the same new `device_id`, exactly one Device row for that
`device_id` exists afterwards (the unique constraint is never corrupted),
and exactly one of the two callers observes the creation result
(201 / `registered`); the other observes either 200 / `updated` (when its
read saw the winner's insert) or a 500 / REGISTRATION_FAILED error (when
both reads preceded the insert: the constraint rejects the duplicate
INSERT and the code does not retry it as an update). -/
theorem raceRegister_spec (o : RaceOrder) (now1 now2 : Nat)
    (b : RegisterBody) (s : Store)
    (hnone : findDevice s b.device_id = none) :
    countFor b.device_id (raceRegister o now1 now2 b s).2.2.devices = 1
    ∧ (((raceRegister o now1 now2 b s).1.httpStatus = 201
        ∧ (raceRegister o now1 now2 b s).1.status = some "registered"
        ∧ raceLoser (raceRegister o now1 now2 b s).2.1)
      ∨ ((raceRegister o now1 now2 b s).2.1.httpStatus = 201
        ∧ (raceRegister o now1 now2 b s).2.1.status = some "registered"
        ∧ raceLoser (raceRegister o now1 now2 b s).1)) := by
  have hread0 : regRead b s = false := by
    unfold regRead
    rw [hnone]
    rfl
  cases o
  case r1w1r2w2 =>
    have hrace : raceRegister .r1w1r2w2 now1 now2 b s =
        ((regWrite now1 b false s).1,
         (regWrite now2 b true (regWrite now1 b false s).2).1,
         (regWrite now2 b true (regWrite now1 b false s).2).2) := by
      simp only [raceRegister]
      rw [hread0]
      have : regRead b (regWrite now1 b false s).2 = true := by
        unfold regRead
        rw [regWrite_insert now1 b s hnone]
        rw [findDevice_insert now1 b s hnone]
        rfl
      rw [this]
    rw [hrace, regWrite_insert now1 b s hnone, regWrite_update]
    refine ⟨?_, Or.inl ⟨rfl, rfl, Or.inl ⟨rfl, rfl⟩⟩⟩
    simp only
    rw [countFor_map_of_pres _ _ (regUpd_pres now2 b)]
    exact countFor_insert now1 b s hnone
  case r1r2w1w2 =>
    have hrace : raceRegister .r1r2w1w2 now1 now2 b s =
        ((regWrite now1 b false s).1,
         (regWrite now2 b false (regWrite now1 b false s).2).1,
         (regWrite now2 b false (regWrite now1 b false s).2).2) := by
      simp only [raceRegister]
      rw [hread0]
    rw [hrace, regWrite_insert now1 b s hnone,
      regWrite_conflict now2 b _ _ (findDevice_insert now1 b s hnone)]
    exact ⟨countFor_insert now1 b s hnone,
      Or.inl ⟨rfl, rfl, Or.inr ⟨rfl, rfl⟩⟩⟩
  case r2r1w1w2 =>
    have hrace : raceRegister .r2r1w1w2 now1 now2 b s =
        ((regWrite now1 b false s).1,
         (regWrite now2 b false (regWrite now1 b false s).2).1,
         (regWrite now2 b false (regWrite now1 b false s).2).2) := by
      simp only [raceRegister]
      rw [hread0]
    rw [hrace, regWrite_insert now1 b s hnone,
      regWrite_conflict now2 b _ _ (findDevice_insert now1 b s hnone)]
    exact ⟨countFor_insert now1 b s hnone,
      Or.inl ⟨rfl, rfl, Or.inr ⟨rfl, rfl⟩⟩⟩
  case r1r2w2w1 =>
    have hrace : raceRegister .r1r2w2w1 now1 now2 b s =
        ((regWrite now1 b false (regWrite now2 b false s).2).1,
         (regWrite now2 b false s).1,
         (regWrite now1 b false (regWrite now2 b false s).2).2) := by
      simp only [raceRegister]
      rw [hread0]
    rw [hrace, regWrite_insert now2 b s hnone,
      regWrite_conflict now1 b _ _ (findDevice_insert now2 b s hnone)]
    exact ⟨countFor_insert now2 b s hnone,
      Or.inr ⟨rfl, rfl, Or.inr ⟨rfl, rfl⟩⟩⟩
  case r2r1w2w1 =>
    have hrace : raceRegister .r2r1w2w1 now1 now2 b s =
        ((regWrite now1 b false (regWrite now2 b false s).2).1,
         (regWrite now2 b false s).1,
         (regWrite now1 b false (regWrite now2 b false s).2).2) := by
      simp only [raceRegister]
      rw [hread0]
    rw [hrace, regWrite_insert now2 b s hnone,
      regWrite_conflict now1 b _ _ (findDevice_insert now2 b s hnone)]
    exact ⟨countFor_insert now2 b s hnone,
      Or.inr ⟨rfl, rfl, Or.inr ⟨rfl, rfl⟩⟩⟩
  case r2w2r1w1 =>
    have hrace : raceRegister .r2w2r1w1 now1 now2 b s =
        ((regWrite now1 b true (regWrite now2 b false s).2).1,
         (regWrite now2 b false s).1,
         (regWrite now1 b true (regWrite now2 b false s).2).2) := by
      simp only [raceRegister]
      rw [hread0]
      have : regRead b (regWrite now2 b false s).2 = true := by
        unfold regRead
        rw [regWrite_insert now2 b s hnone]
        rw [findDevice_insert now2 b s hnone]
        rfl
      rw [this]
    rw [hrace, regWrite_insert now2 b s hnone, regWrite_update]
    refine ⟨?_, Or.inr ⟨rfl, rfl, Or.inl ⟨rfl, rfl⟩⟩⟩
    simp only
    rw [countFor_map_of_pres _ _ (regUpd_pres now1 b)]
    exact countFor_insert now2 b s hnone

/-- C5 witness: in the fully serialized interleaving starting from the
empty store, exactly one `dev-1` row exists afterwards and one caller got
the creation result while the other got a losing outcome. -/
theorem raceRegister_spec_witness :
    countFor "dev-1"
      (raceRegister .r1w1r2w2 0 1 wRegBody emptyStore).2.2.devices = 1 :=
  (raceRegister_spec .r1w1r2w2 0 1 wRegBody emptyStore (by decide)).1

/-! ### Lemmas about a single successful sync step -/

theorem syncDeviceData_step (now : Nat) (b : SyncBody) (s : Store)
    (d : Device) (hv : syncValid b = true)
    (hd : findDevice s b.device_id = some d) :
    syncDeviceData true now b s =
      ({ httpStatus := 200, success := true, status := none,
         error_code := none },
       { devices := s.devices.map (fun x =>
           if x.device_id == b.device_id then syncUpdatedDevice now x
           else x),
         device_logs := s.device_logs ++ [insertedLog now b s.nextLogRowId],
         nextDeviceRowId := s.nextDeviceRowId,
         nextLogRowId := s.nextLogRowId + 1 }) := by
  unfold syncDeviceData
  rw [if_pos hv, hd]
  rfl

theorem syncUpd_pres (now : Nat) (b : SyncBody) :
    ∀ d, ((fun x =>
      if x.device_id == b.device_id then syncUpdatedDevice now x else x)
        d).device_id = d.device_id := by
  intro d
  show (if d.device_id == b.device_id then syncUpdatedDevice now d
    else d).device_id = d.device_id
  by_cases hc : (d.device_id == b.device_id) = true
  · rw [if_pos hc]
    rfl
  · rw [if_neg hc]

theorem findDevice_map_upd (s : Store) (did : String) (f : Device → Device)
    (hf : ∀ d, (f d).device_id = d.device_id) (ls : List DeviceLog)
    (n1 n2 : Nat) :
    findDevice
      { devices := s.devices.map f, device_logs := ls,
        nextDeviceRowId := n1, nextLogRowId := n2 } did =
      Option.map f (findDevice s did) := by
  show (s.devices.map f).find? (fun d => d.device_id == did) = _
  rw [find?_map_of_pres _ _ hf]
  rfl

theorem runSyncs_general (did : String) (calls : List (Nat × SyncBody))
    (s : Store) (hdev : (findDevice s did).isSome = true)
    (hcalls : ∀ c ∈ calls, c.2.device_id = did ∧ syncValid c.2 = true) :
    (∀ r ∈ (runSyncs calls s).1, r.httpStatus = 200 ∧ r.success = true)
    ∧ logCount did (runSyncs calls s).2 = logCount did s + calls.length
    ∧ ((findDevice (runSyncs calls s).2 did).isSome = true)
    ∧ (∀ c, calls.getLast? = some c →
        Option.map Device.last_seen (findDevice (runSyncs calls s).2 did) =
          some c.1) := by
  induction calls generalizing s with
  | nil =>
      refine ⟨?_, by simp [runSyncs], hdev, ?_⟩
      · intro r hr
        cases hr
      · intro c hc
        simp at hc
  | cons c cs ih =>
      obtain ⟨d, hd⟩ := Option.isSome_iff_exists.1 hdev
      have hc1 := hcalls c (List.mem_cons_self c cs)
      have hdid : findDevice s c.2.device_id = some d := by
        rw [hc1.1]
        exact hd
      have hdid' : s.devices.find? (fun x => x.device_id == c.2.device_id) =
          some d := hdid
      have hpd : (d.device_id == c.2.device_id) = true :=
        @List.find?_some Device (fun x => x.device_id == c.2.device_id) d
          s.devices hdid' 
      have hpres := syncUpd_pres c.1 c.2
      have hstep := syncDeviceData_step c.1 c.2 s d hc1.2 hdid
      have hrun : runSyncs (c :: cs) s =
          ((syncDeviceData true c.1 c.2 s).1 ::
            (runSyncs cs (syncDeviceData true c.1 c.2 s).2).1,
           (runSyncs cs (syncDeviceData true c.1 c.2 s).2).2) := rfl
      have hfind1 : findDevice (syncDeviceData true c.1 c.2 s).2 did =
          some (syncUpdatedDevice c.1 d) := by
        rw [hstep]
        rw [findDevice_map_upd s did _ hpres _ _ _]
        rw [show findDevice s did = some d from hd]
        rw [Option.map_some']
        show some (if d.device_id == c.2.device_id then
          syncUpdatedDevice c.1 d else d) = _
        rw [if_pos hpd]
      have hdev1 : ((findDevice (syncDeviceData true c.1 c.2 s).2 did).isSome)
          = true := by
        rw [hfind1]
        rfl
      have hcount1 : logCount did (syncDeviceData true c.1 c.2 s).2 =
          logCount did s + 1 := by
        rw [hstep]
        show (List.filter (fun l => l.device_id == did)
          (s.device_logs ++ [insertedLog c.1 c.2 s.nextLogRowId])).length = _
        rw [List.filter_append]
        have : ((insertedLog c.1 c.2 s.nextLogRowId).device_id == did)
            = true := by
          show (c.2.device_id == did) = true
          rw [hc1.1]
          simp
        simp [List.filter, this, logCount]
      have ihx := ih (syncDeviceData true c.1 c.2 s).2 hdev1
        (fun x hx => hcalls x (List.mem_cons_of_mem c hx))
      rw [hrun]
      refine ⟨?_, ?_, ihx.2.2.1, ?_⟩
      · intro r hr
        rcases List.mem_cons.1 hr with h | h
        · rw [h, hstep]
          exact ⟨rfl, rfl⟩
        · exact ihx.1 r h
      · rw [ihx.2.1, hcount1]
        simp only [List.length_cons]
        omega
      · intro clast hlast
        cases cs with
        | nil =>
            have hcc : clast = c := by
              have := hlast
              simp at this
              exact this.symm
            show Option.map Device.last_seen
              (findDevice (syncDeviceData true c.1 c.2 s).2 did) =
                some clast.1
            rw [hfind1, hcc]
            rfl
        | cons c2 cs2 =>
            have hlast2 : (c2 :: cs2).getLast? = some clast := by
              rw [← List.getLast?_cons_cons]
              exact hlast
            exact ihx.2.2.2 clast hlast2

/-- C8: starting from any store in which the device exists and owns no
TelemetryRecords (e.g. right after registration), a sequence of N valid
sync calls for that device succeeds at every step (each response is
HTTP 200 / success), leaves the device's log count at exactly N, and
leaves the device's `last_seen` equal to the receipt timestamp of the
most recent (last) successful call. -/
theorem runSyncs_spec (did : String) (calls : List (Nat × SyncBody))
    (s : Store) (hdev : (findDevice s did).isSome = true)
    (hcalls : ∀ c ∈ calls, c.2.device_id = did ∧ syncValid c.2 = true)
    (hzero : logCount did s = 0) :
    (∀ r ∈ (runSyncs calls s).1, r.httpStatus = 200 ∧ r.success = true)
    ∧ logCount did (runSyncs calls s).2 = calls.length
    ∧ (∀ c, calls.getLast? = some c →
        Option.map Device.last_seen (findDevice (runSyncs calls s).2 did) =
          some c.1) := by
  have h := runSyncs_general did calls s hdev hcalls
  refine ⟨h.1, ?_, h.2.2.2⟩
  rw [h.2.1, hzero]
  omega

/-- C8 witness: two successful syncs for `dev-1` at times 3 and 8 leave
its log count at 2 and its `last_seen` at 8. -/
theorem runSyncs_spec_witness :
    logCount "dev-1"
      (runSyncs [(3, wSyncBody), (8, wSyncBody)] wStore).2 = 2
    ∧ Option.map Device.last_seen
        (findDevice (runSyncs [(3, wSyncBody), (8, wSyncBody)] wStore).2
          "dev-1") = some 8 := by
  have h := runSyncs_spec "dev-1" [(3, wSyncBody), (8, wSyncBody)] wStore
    (by decide) (by decide) (by decide)
  exact ⟨h.2.1, h.2.2 (8, wSyncBody) (by decide)⟩

/-- `mathCeilDiv a b` is exactly the ceiling of the rational `a / b`:
it is the least number of pages covering `a` items at `b` per page. -/
theorem mathCeilDiv_spec (a b : Nat) (hb : 0 < b) :
    a ≤ mathCeilDiv a b * b ∧ mathCeilDiv a b * b < a + b := by
  unfold mathCeilDiv
  have hdm : b * (a / b) + a % b = a := Nat.div_add_mod a b
  have h1 : a / b * b = b * (a / b) := Nat.mul_comm _ _
  have hlt : a % b < b := Nat.mod_lt a hb
  by_cases h : a % b = 0
  · rw [if_pos (by simpa using h)]
    rw [Nat.add_zero]
    have hdm2 : a / b * b = a := by
      rw [h1]
      rw [h] at hdm
      simpa using hdm
    rw [hdm2]
    exact ⟨le_refl a, Nat.lt_add_of_pos_right hb⟩
  · rw [if_neg (by simpa using h)]
    rw [Nat.add_mul, Nat.one_mul]
    have hXa : a / b * b + a % b = a := by
      rw [h1]
      exact hdm
    constructor
    · calc a = a / b * b + a % b := hXa.symm
        _ ≤ a / b * b + b := Nat.add_le_add_left (Nat.le_of_lt hlt) _
    · have h2 : a / b * b < a / b * b + a % b :=
        Nat.lt_add_of_pos_right (Nat.pos_of_ne_zero h)
      rw [hXa] at h2
      exact Nat.add_lt_add_right h2 b

/-- C7: for `page ≥ 1` and `limit > 0`, the device page returned by
`getAllDevices` is exactly the slice of the filtered,
`last_seen`-descending-sorted device list starting at offset
`(page − 1) × limit` of length at most `limit`; the reported `total` is
the size of the filtered set before pagination; the sorted list is a
descending permutation of the filtered set; and `pages` is exactly
`ceil(total / limit)` (characterised as the least page count covering
`total`). -/
theorem getAllDevices_spec (page limit : Nat) (search status : String)
    (s : Store) (_hp : 1 ≤ page) (hl : 0 < limit) :
    (getAllDevices page limit search status s).devices.map Prod.fst =
      ((sortDevices (filteredDevices search status s)).drop
        ((page - 1) * limit)).take limit
    ∧ (getAllDevices page limit search status s).devices.length ≤ limit
    ∧ (getAllDevices page limit search status s).total =
        (filteredDevices search status s).length
    ∧ List.Pairwise (fun a b => b.last_seen ≤ a.last_seen)
        (sortDevices (filteredDevices search status s))
    ∧ (sortDevices (filteredDevices search status s)).Perm
        (filteredDevices search status s)
    ∧ (getAllDevices page limit search status s).total ≤
        (getAllDevices page limit search status s).pages * limit
    ∧ (getAllDevices page limit search status s).pages * limit <
        (getAllDevices page limit search status s).total + limit := by
  have hceil := mathCeilDiv_spec (filteredDevices search status s).length
    limit hl
  refine ⟨?_, ?_, rfl, ?_, ?_, hceil.1, hceil.2⟩
  · show (List.map (fun d => (d, latestLog s d.device_id))
        (((sortDevices (filteredDevices search status s)).drop
          ((page - 1) * limit)).take limit)).map Prod.fst =
      ((sortDevices (filteredDevices search status s)).drop
        ((page - 1) * limit)).take limit
    rw [List.map_map]
    have hfid : (Prod.fst ∘ fun d : Device => (d, latestLog s d.device_id)) =
        fun d : Device => d := rfl
    rw [hfid]
    exact List.map_id' _
  · show (List.map (fun d => (d, latestLog s d.device_id))
        (((sortDevices (filteredDevices search status s)).drop
          ((page - 1) * limit)).take limit)).length ≤ limit
    rw [List.length_map, List.length_take]
    exact Nat.min_le_left _ _
  · exact List.sorted_insertionSort lastSeenGe _
  · exact List.perm_insertionSort lastSeenGe _

/-- C7 witness: on a two-device store with `page = 1`, `limit = 1`, the
page holds at most one device, `total = 2` and `pages = 2`. -/
theorem getAllDevices_spec_witness :
    (getAllDevices 1 1 "" "all" wStore2).total = 2
    ∧ (getAllDevices 1 1 "" "all" wStore2).pages = 2
    ∧ (getAllDevices 1 1 "" "all" wStore2).devices.length ≤ 1
    ∧ (getAllDevices 1 1 "" "all" wStore2).total ≤
        (getAllDevices 1 1 "" "all" wStore2).pages * 1 := by
  have h := getAllDevices_spec 1 1 "" "all" wStore2 (by decide) (by decide)
  exact ⟨by decide, by decide, h.2.1, h.2.2.2.2.2.1⟩
